import Mathlib

/-!
Shallow embedding of the Tari DHT actor (`comms/dht/src/actor.rs`).

The actor serializes three kinds of requests: `SendJoin`, `SendDiscover` and
`SignatureCacheInsert`.  Pure protocol construction (`send_join`,
`send_discover`, `request_stored_messages`) is embedded as functions producing
an `OutboundCall` record; the dedup signature cache (the `ttl_cache` crate,
external to the repository) is modelled from the spec; the dispatch loop is
embedded as a step function over an explicit event list.
-/

/-- A message fingerprint: an arbitrary byte sequence (each byte a `Nat`),
including the empty sequence. -/
abbrev Fingerprint := List Nat

/-- Modelled from the spec: a node's network identifier (`NodeId` from
`tari_comms::peer_manager`, not part of this repository) — an opaque value in
the overlay's addressing space, embedded as a byte sequence. -/
abbrev NodeId := List Nat

/-- Modelled from the spec: a node's cryptographic public key
(`CommsPublicKey` from `tari_comms::types`, not part of this repository),
embedded as an opaque byte sequence. -/
abbrev CommsPublicKey := List Nat

/-- Modelled from the spec: `NodeDestination` (from `crate::envelope`, not
under `src/`): `Unknown`, `PublicKey(P)` or `NodeId(N)`. -/
inductive NodeDestination where
  | Unknown : NodeDestination
  | PublicKey (public_key : CommsPublicKey) : NodeDestination
  | NodeId (node_id : List Nat) : NodeDestination
deriving DecidableEq, Repr

/-- Modelled from the spec: `OutboundEncryption` (from `crate::outbound`, not
under `src/`): encryption policy none / encrypt-for(public key) /
encrypt-for-destination. -/
inductive OutboundEncryption where
  | None : OutboundEncryption
  | EncryptFor (public_key : CommsPublicKey) : OutboundEncryption
  | EncryptForDestination : OutboundEncryption
deriving DecidableEq, Repr

/-- Modelled from the spec: `DhtMessageType` tags (from
`crate::proto::envelope`, not under `src/`), restricted to the three tags the
actor emits. -/
inductive DhtMessageType where
  | Join : DhtMessageType
  | Discover : DhtMessageType
  | SafRequestMessages : DhtMessageType
deriving DecidableEq, Repr

/-- Modelled from the spec: `BroadcastClosestRequest` (from `crate::outbound`,
not under `src/`): a fan-out count `n`, a target `node_id` and an exclusion
list. -/
structure BroadcastClosestRequest where
  n : Nat
  node_id : NodeId
  excluded_peers : List NodeId
deriving DecidableEq, Repr

/-- Modelled from the spec: `BroadcastStrategy` (from `crate::outbound`, not
under `src/`), restricted to the `Closest` variant the actor uses. -/
inductive BroadcastStrategy where
  | Closest (request : BroadcastClosestRequest) : BroadcastStrategy
deriving DecidableEq, Repr

/-- Modelled from the spec: `JoinMessage` (from `crate::proto::dht`, not under
`src/`): the local node's identifier bytes, advertised addresses and feature
bitmask. -/
structure JoinMessage where
  node_id : List Nat
  addresses : List String
  peer_features : Nat
deriving DecidableEq, Repr

/-- Modelled from the spec: `DiscoverMessage` (from `crate::proto::dht`, not
under `src/`): structurally identical to `JoinMessage`. -/
structure DiscoverMessage where
  node_id : List Nat
  addresses : List String
  peer_features : Nat
deriving DecidableEq, Repr

/-- Modelled from the spec: `StoredMessagesRequest` (from
`crate::proto::store_forward`, not under `src/`): parameterless in this core
(no "since" cursor). -/
structure StoredMessagesRequest where
deriving DecidableEq, Repr

/-- `StoredMessagesRequest::new()`. -/
def StoredMessagesRequest.new : StoredMessagesRequest := {}

/-- Modelled from the spec: the read-only identity collaborator
(`NodeIdentity` from `tari_comms::peer_manager`, not part of this repository):
local network identifier, advertised control-service address, feature
bitmask (`features().bits()`). -/
structure NodeIdentity where
  node_id : NodeId
  control_service_address : String
  features_bits : Nat
deriving DecidableEq, Repr

/-- Modelled from the spec: the `DhtConfig` fields this core reads (the config
type lives outside `src/`). -/
structure DhtConfig where
  enable_auto_join : Bool
  enable_auto_stored_message_request : Bool
  num_neighbouring_nodes : Nat
  signature_cache_capacity : Nat
  signature_cache_ttl : Nat
deriving DecidableEq, Repr

/-- Modelled from the spec: the dedup cache (`ttl_cache::TtlCache`, an
external crate).  Entries are `(fingerprint, expiry instant)` pairs kept
newest first; an entry is live at time `now` iff `now` is strictly before its
expiry; capacity is a hard ceiling enforced at insert time by evicting
existing (oldest-first) entries, never by rejecting the new insert. -/
structure TtlCache where
  capacity : Nat
  entries : List (Fingerprint × Nat)
deriving DecidableEq, Repr

/-- `TtlCache::new(capacity)`: an empty cache. -/
def TtlCache.new (capacity : Nat) : TtlCache :=
  ⟨capacity, []⟩

/-- An entry for key `k` is currently present iff it was inserted and its TTL
has not elapsed (`now` strictly before the stored expiry). -/
def TtlCache.containsLive (c : TtlCache) (k : Fingerprint) (now : Nat) : Bool :=
  c.entries.any fun e => e.1 == k && decide (now < e.2)

/-- Modelled from the spec: `TtlCache::insert(k, (), ttl)` at time `now`.
Returns the `is_some()` of the displaced live entry (`true` iff `k` was
currently present) together with the updated cache: the stale entry for `k`
and all expired entries are dropped, the fresh entry (expiry `now + ttl`) is
prepended, and the list is truncated to `capacity` (evicting oldest first). -/
def TtlCache.insert (c : TtlCache) (k : Fingerprint) (ttl : Nat) (now : Nat) :
    Bool × TtlCache :=
  let already_present := c.containsLive k now
  let kept := c.entries.filter fun e => !(e.1 == k) && decide (now < e.2)
  (already_present, ⟨c.capacity, ((k, now + ttl) :: kept).take c.capacity⟩)

/-- A finite sequence of inserts, each a `(fingerprint, ttl, now)` triple. -/
def TtlCache.insertSeq (c : TtlCache) : List (Fingerprint × Nat × Nat) → TtlCache
  | [] => c
  | (f, d, now) :: rest => ((c.insert f d now).2).insertSeq rest

/-- The payload handed to the outbound collaborator: one of the three
protocol messages the actor builds. -/
inductive OutboundPayload where
  | join (message : JoinMessage) : OutboundPayload
  | discover (message : DiscoverMessage) : OutboundPayload
  | storedMessagesRequest (message : StoredMessagesRequest) : OutboundPayload
deriving DecidableEq, Repr

/-- One call to the outbound collaborator's
`send_dht_message(strategy, destination, encryption, message_type, payload)`. -/
structure OutboundCall where
  strategy : BroadcastStrategy
  destination : NodeDestination
  encryption : OutboundEncryption
  message_type : DhtMessageType
  payload : OutboundPayload
deriving DecidableEq, Repr

/-- The target node identifier carried inside a `Closest` broadcast
strategy. -/
def OutboundCall.strategy_node_id (call : OutboundCall) : NodeId :=
  match call.strategy with
  | .Closest request => request.node_id

/-- `DhtRequest`: the three operations the actor accepts.  The
`SignatureCacheInsert` reply channel is modelled by the `reply` field of the
handler's result. -/
inductive DhtRequest where
  | SendJoin : DhtRequest
  | SendDiscover (dest_public_key : CommsPublicKey) (dest_node_id : Option NodeId)
      (destination : NodeDestination) : DhtRequest
  | SignatureCacheInsert (signature : Fingerprint) : DhtRequest
deriving DecidableEq, Repr

/-- Whether a request is a `SignatureCacheInsert`. -/
def DhtRequest.isSignatureCacheInsert : DhtRequest → Bool
  | .SignatureCacheInsert _ => true
  | _ => false

/-- `DhtActorError`: channel disconnected / send buffer full / reply sender
canceled. -/
inductive DhtActorError where
  | ChannelDisconnected : DhtActorError
  | SendBufferFull : DhtActorError
  | ReplyCanceled : DhtActorError
deriving DecidableEq, Repr

/-- Outcome of an `mpsc` send as seen by the requester: accepted, or failed
because the channel is disconnected, or failed because the buffer is full. -/
inductive MpscSendOutcome where
  | accepted : MpscSendOutcome
  | disconnected : MpscSendOutcome
  | full : MpscSendOutcome
deriving DecidableEq, Repr

/-- `impl From<SendError> for DhtActorError` restricted to the two failure
cases: disconnected maps to `ChannelDisconnected`, full to `SendBufferFull`. -/
def sendErrorToDhtActorError (disconnected : Bool) : DhtActorError :=
  if disconnected then DhtActorError.ChannelDisconnected else DhtActorError.SendBufferFull

/-- `DhtRequester::insert_message_signature`: enqueue the request (propagating
a failed send as a `DhtActorError`), then await the oneshot reply;
`reply_outcome = some b` models the actor sending `b`, `none` models the
actor dropping the reply channel without sending, which surfaces as
`ReplyCanceled`. -/
def DhtRequester.insert_message_signature (send_result : MpscSendOutcome)
    (reply_outcome : Option Bool) : Except DhtActorError Bool :=
  match send_result with
  | .disconnected => .error (sendErrorToDhtActorError true)
  | .full => .error (sendErrorToDhtActorError false)
  | .accepted =>
    match reply_outcome with
    | some b => .ok b
    | none => .error DhtActorError.ReplyCanceled

/-- `DhtActor::send_join`: build the `JoinMessage` from the local identity and
broadcast it to the closest `num_neighbouring_nodes` peers to the local node
identifier, with no exclusions, destination `Unknown`, unencrypted. -/
def DhtActor.send_join (node_identity : NodeIdentity) (config : DhtConfig) : OutboundCall :=
  { strategy := .Closest
      { n := config.num_neighbouring_nodes
        node_id := node_identity.node_id
        excluded_peers := [] }
    destination := .Unknown
    encryption := .None
    message_type := .Join
    payload := .join
      { node_id := node_identity.node_id
        addresses := [node_identity.control_service_address]
        peer_features := node_identity.features_bits } }

/-- The destination-resolution step inside `DhtActor::send_discover`:
`dest_node_id.unwrap_or(match destination ...)` — an explicit node identifier
wins; otherwise `Unknown` and `PublicKey(_)` resolve to the local identifier
and `NodeId(n)` resolves to `n`. -/
def DhtActor.network_location_node_id (dest_node_id : Option NodeId)
    (destination : NodeDestination) (self_node_id : NodeId) : NodeId :=
  dest_node_id.getD
    (match destination with
     | .Unknown | .PublicKey _ => self_node_id
     | .NodeId node_id => node_id)

/-- `DhtActor::send_discover`: build the `DiscoverMessage` from the local
identity and broadcast it to the closest `num_neighbouring_nodes` peers to the
resolved network-location identifier, encrypted for the target public key. -/
def DhtActor.send_discover (node_identity : NodeIdentity) (config : DhtConfig)
    (dest_public_key : CommsPublicKey) (dest_node_id : Option NodeId)
    (destination : NodeDestination) : OutboundCall :=
  { strategy := .Closest
      { n := config.num_neighbouring_nodes
        node_id := DhtActor.network_location_node_id dest_node_id destination node_identity.node_id
        excluded_peers := [] }
    destination := destination
    encryption := .EncryptFor dest_public_key
    message_type := .Discover
    payload := .discover
      { node_id := node_identity.node_id
        addresses := [node_identity.control_service_address]
        peer_features := node_identity.features_bits } }

/-- `DhtActor::request_stored_messages`: broadcast a `StoredMessagesRequest`
to the closest `num_neighbouring_nodes` peers to the local node identifier,
destination `Unknown`, encrypted for destination. -/
def DhtActor.request_stored_messages (node_identity : NodeIdentity) (config : DhtConfig) :
    OutboundCall :=
  { strategy := .Closest
      { n := config.num_neighbouring_nodes
        node_id := node_identity.node_id
        excluded_peers := [] }
    destination := .Unknown
    encryption := .EncryptForDestination
    message_type := .SafRequestMessages
    payload := .storedMessagesRequest StoredMessagesRequest.new }

/-- Result of dispatching one request: the updated cache, the outbound calls
attempted, the boolean sent over the reply channel (for cache inserts only),
and the `Result` the handler then merely logs. -/
structure HandleResult where
  cache : TtlCache
  calls : List OutboundCall
  reply : Option Bool
  result_ok : Bool
deriving DecidableEq, Repr

/-- `DhtActor::handle_request`: `SendJoin` and `SendDiscover` invoke the
corresponding builder (the transport outcome `transport_ok` becomes the logged
result); `SignatureCacheInsert` inserts into the signature cache with
`signature_cache_ttl` at the current time and replies with the
already-present boolean, its result always `Ok`. -/
def DhtActor.handle_request (node_identity : NodeIdentity) (config : DhtConfig)
    (cache : TtlCache) (request : DhtRequest) (now : Nat) (transport_ok : Bool) :
    HandleResult :=
  match request with
  | .SendJoin =>
    { cache := cache
      calls := [DhtActor.send_join node_identity config]
      reply := none
      result_ok := transport_ok }
  | .SendDiscover dest_public_key dest_node_id destination =>
    { cache := cache
      calls := [DhtActor.send_discover node_identity config dest_public_key dest_node_id destination]
      reply := none
      result_ok := transport_ok }
  | .SignatureCacheInsert signature =>
    let inserted := cache.insert signature config.signature_cache_ttl now
    { cache := inserted.2
      calls := []
      reply := some inserted.1
      result_ok := true }

/-- One event observed by the dispatch loop's select: a dequeued request
(with its arrival time and the transport outcome of any broadcast it
triggers), the shutdown signal firing, or the request queue reporting closed
with no further items. -/
inductive LoopEvent where
  | request (request : DhtRequest) (now : Nat) (transport_ok : Bool) : LoopEvent
  | shutdownSignal : LoopEvent
  | queueClosed : LoopEvent
deriving DecidableEq, Repr

/-- The dispatch loop's state: `Running` (still selecting on events) or the
terminal `Stopped` (the loop has exited), each carrying the cache. -/
inductive LoopState where
  | Running (cache : TtlCache) : LoopState
  | Stopped (cache : TtlCache) : LoopState
deriving DecidableEq, Repr

/-- Whether the loop has reached the terminal `Stopped` state. -/
def LoopState.isStopped : LoopState → Bool
  | .Stopped _ => true
  | .Running _ => false

/-- One iteration of the dispatch loop's select: a dequeued request is handed
to `handle_request` (recorded in the dispatch trace); the shutdown signal and
a closed, drained queue both break out of the loop; once stopped, nothing is
ever dispatched again. -/
def DhtActor.dispatch_step (node_identity : NodeIdentity) (config : DhtConfig) :
    LoopState → LoopEvent → LoopState × List (DhtRequest × HandleResult)
  | .Running cache, .request request now transport_ok =>
    let handled := DhtActor.handle_request node_identity config cache request now transport_ok
    (.Running handled.cache, [(request, handled)])
  | .Running cache, .shutdownSignal => (.Stopped cache, [])
  | .Running cache, .queueClosed => (.Stopped cache, [])
  | .Stopped cache, _ => (.Stopped cache, [])

/-- The dispatch loop over a finite event list, returning the final state and
the dispatch trace (each dispatched request with its `HandleResult`). -/
def DhtActor.dispatch_loop (node_identity : NodeIdentity) (config : DhtConfig) :
    LoopState → List LoopEvent → LoopState × List (DhtRequest × HandleResult)
  | state, [] => (state, [])
  | state, event :: events =>
    let stepped := DhtActor.dispatch_step node_identity config state event
    let rest := DhtActor.dispatch_loop node_identity config stepped.1 events
    (rest.1, stepped.2 ++ rest.2)

/-- `DhtActor::start`: if `enable_auto_join`, attempt the Join broadcast; if
`enable_auto_stored_message_request`, attempt the stored-message request —
each startup attempt is paired with its transport outcome, which is only
logged — then unconditionally enter the dispatch loop in `Running`.  Returns
the startup broadcast attempts, the final loop state and the dispatch
trace. -/
def DhtActor.start (node_identity : NodeIdentity) (config : DhtConfig) (cache : TtlCache)
    (join_send_ok saf_send_ok : Bool) (events : List LoopEvent) :
    List (OutboundCall × Bool) × LoopState × List (DhtRequest × HandleResult) :=
  let startup :=
    (if config.enable_auto_join then [(DhtActor.send_join node_identity config, join_send_ok)] else [])
      ++ (if config.enable_auto_stored_message_request then
            [(DhtActor.request_stored_messages node_identity config, saf_send_ok)]
          else [])
  let looped := DhtActor.dispatch_loop node_identity config (.Running cache) events
  (startup, looped.1, looped.2)

/-- Sequential dispatch of a request list (each with its arrival time and
transport outcome), tracking only the cache — the state `handle_request`
threads through the loop. -/
def DhtActor.run_requests (node_identity : NodeIdentity) (config : DhtConfig)
    (cache : TtlCache) : List (DhtRequest × Nat × Bool) → TtlCache
  | [] => cache
  | (request, now, transport_ok) :: rest =>
    DhtActor.run_requests node_identity config
      (DhtActor.handle_request node_identity config cache request now transport_ok).cache rest

/-! ### Helper lemmas about the dedup cache -/

theorem TtlCache.insert_fst (c : TtlCache) (k : Fingerprint) (ttl now : Nat) :
    (c.insert k ttl now).1 = c.containsLive k now := rfl

theorem TtlCache.insert_capacity (c : TtlCache) (k : Fingerprint) (ttl now : Nat) :
    (c.insert k ttl now).2.capacity = c.capacity := rfl

theorem TtlCache.insert_entries (c : TtlCache) (k : Fingerprint) (ttl now : Nat) :
    (c.insert k ttl now).2.entries
      = ((k, now + ttl) :: c.entries.filter fun e => !(e.1 == k) && decide (now < e.2)).take
          c.capacity := rfl

theorem TtlCache.containsLive_new (cap : Nat) (k : Fingerprint) (now : Nat) :
    (TtlCache.new cap).containsLive k now = false := rfl

/-- The entry just inserted is live at every instant before its expiry,
provided the cache can hold at least one entry. -/
theorem TtlCache.containsLive_insert_self (c : TtlCache) (k : Fingerprint) (ttl now t : Nat)
    (hcap : 0 < c.capacity) (ht : t < now + ttl) :
    (c.insert k ttl now).2.containsLive k t = true := by
  unfold TtlCache.containsLive
  rw [TtlCache.insert_entries]
  cases hcp : c.capacity with
  | zero => rw [hcp] at hcap; exact absurd hcap (by omega)
  | succ m =>
    rw [List.take_succ_cons, List.any_cons]
    simp [ht]

/-- An insert never leaves more than `capacity` entries in the cache. -/
theorem TtlCache.insert_length_le (c : TtlCache) (k : Fingerprint) (ttl now : Nat) :
    (c.insert k ttl now).2.entries.length ≤ c.capacity := by
  rw [TtlCache.insert_entries, List.length_take]
  exact min_le_left _ _

theorem TtlCache.insertSeq_capacity :
    ∀ (ops : List (Fingerprint × Nat × Nat)) (c : TtlCache),
      (c.insertSeq ops).capacity = c.capacity
  | [], _ => rfl
  | (f, d, now) :: rest, c => by
    rw [TtlCache.insertSeq, TtlCache.insertSeq_capacity rest, TtlCache.insert_capacity]

theorem TtlCache.insertSeq_length_le :
    ∀ (ops : List (Fingerprint × Nat × Nat)) (c : TtlCache),
      c.entries.length ≤ c.capacity →
      (c.insertSeq ops).entries.length ≤ c.capacity
  | [], _, h => h
  | (f, d, now) :: rest, c, _ => by
    rw [TtlCache.insertSeq]
    have h2 := TtlCache.insertSeq_length_le rest (c.insert f d now).2
      (by rw [TtlCache.insert_capacity]; exact TtlCache.insert_length_le c f d now)
    rwa [TtlCache.insert_capacity] at h2

/-- After inserting `k`, every entry whose key is `k` carries exactly the
fresh expiry `now + ttl`. -/
theorem TtlCache.insert_key_expiry (c : TtlCache) (k : Fingerprint) (ttl now : Nat) :
    ∀ e ∈ (c.insert k ttl now).2.entries, e.1 = k → e.2 = now + ttl := by
  intro e he hk
  rw [TtlCache.insert_entries] at he
  have he2 := List.take_subset _ _ he
  rcases List.mem_cons.mp he2 with h | h
  · rw [h]
  · have := (List.mem_filter.mp h).2
    simp only [Bool.and_eq_true, Bool.not_eq_true', beq_eq_false_iff_ne] at this
    exact absurd hk this.1

/-- Inserting a different key never raises the expiry bound of the entries
stored under `f`. -/
theorem TtlCache.insert_other_key_bound (c : TtlCache) (f g : Fingerprint) (ttl now B : Nat)
    (hne : g ≠ f) (hb : ∀ e ∈ c.entries, e.1 = f → e.2 ≤ B) :
    ∀ e ∈ (c.insert g ttl now).2.entries, e.1 = f → e.2 ≤ B := by
  intro e he hk
  rw [TtlCache.insert_entries] at he
  have he2 := List.take_subset _ _ he
  rcases List.mem_cons.mp he2 with h | h
  · rw [h] at hk
    exact absurd hk hne
  · exact hb e (List.mem_filter.mp h).1 hk

/-- A sequence of inserts that never touches `f` preserves an expiry bound on
the entries stored under `f`. -/
theorem TtlCache.insertSeq_key_bound (f : Fingerprint) (B : Nat) :
    ∀ (ops : List (Fingerprint × Nat × Nat)) (c : TtlCache),
      (∀ o ∈ ops, o.1 ≠ f) →
      (∀ e ∈ c.entries, e.1 = f → e.2 ≤ B) →
      ∀ e ∈ (c.insertSeq ops).entries, e.1 = f → e.2 ≤ B
  | [], _, _, hb => hb
  | (g, d, now) :: rest, c, hops, hb => by
    rw [TtlCache.insertSeq]
    refine TtlCache.insertSeq_key_bound f B rest _ (fun o ho => hops o (List.mem_cons_of_mem _ ho)) ?_
    exact TtlCache.insert_other_key_bound c f g d now B
      (hops (g, d, now) (List.mem_cons_self _ _)) hb

/-- If every entry stored under `f` expires no later than `B`, then `f` is not
live at any instant `t ≥ B`. -/
theorem TtlCache.containsLive_eq_false_of_bound (c : TtlCache) (f : Fingerprint) (B t : Nat)
    (hb : ∀ e ∈ c.entries, e.1 = f → e.2 ≤ B) (ht : B ≤ t) :
    c.containsLive f t = false := by
  unfold TtlCache.containsLive
  rw [List.any_eq_false]
  intro e he
  simp only [Bool.and_eq_true, beq_iff_eq, decide_eq_true_eq, not_and]
  intro hk
  have := hb e he hk
  omega

/-! ### Helper lemmas about the dispatch loop -/

/-- Once the loop has stopped, no further event is ever dispatched. -/
theorem DhtActor.dispatch_loop_stopped (ni : NodeIdentity) (config : DhtConfig) :
    ∀ (events : List LoopEvent) (cache : TtlCache),
      DhtActor.dispatch_loop ni config (.Stopped cache) events = (.Stopped cache, [])
  | [], _ => rfl
  | event :: events, cache => by
    rw [DhtActor.dispatch_loop]
    cases event <;>
      simp [DhtActor.dispatch_step, DhtActor.dispatch_loop_stopped ni config events cache]

/-- The dispatch loop splits over list concatenation. -/
theorem DhtActor.dispatch_loop_append (ni : NodeIdentity) (config : DhtConfig) :
    ∀ (l1 l2 : List LoopEvent) (s : LoopState),
      DhtActor.dispatch_loop ni config s (l1 ++ l2)
        = ((DhtActor.dispatch_loop ni config (DhtActor.dispatch_loop ni config s l1).1 l2).1,
           (DhtActor.dispatch_loop ni config s l1).2
             ++ (DhtActor.dispatch_loop ni config (DhtActor.dispatch_loop ni config s l1).1 l2).2)
  | [], l2, s => by simp [DhtActor.dispatch_loop]
  | e :: l1, l2, s => by
    simp only [List.cons_append, DhtActor.dispatch_loop, List.append_eq,
      DhtActor.dispatch_loop_append ni config l1 l2, List.append_assoc]

/-! ### Claims -/

/-- C1: inserting a fingerprint not currently present returns `false` and
stores it (it is live at every instant before its fresh expiry, given the
cache can hold an entry); inserting a fingerprint currently present returns
`true`; on a fresh cache the first insert returns `false` and an immediately
following insert (any instant before the first expiry) returns `true`. -/
theorem dedup_cache_insert_contract (c : TtlCache) (f : Fingerprint) (d now : Nat) :
    ((c.containsLive f now = false → (c.insert f d now).1 = false)
      ∧ (c.containsLive f now = true → (c.insert f d now).1 = true))
    ∧ (0 < c.capacity → ∀ t, t < now + d → (c.insert f d now).2.containsLive f t = true)
    ∧ (∀ cap, ((TtlCache.new cap).insert f d now).1 = false)
    ∧ (∀ cap t d2, 0 < cap → t < now + d →
        (((TtlCache.new cap).insert f d now).2.insert f d2 t).1 = true) := by
  refine ⟨⟨fun h => ?_, fun h => ?_⟩, fun hcap t ht => ?_, fun cap => rfl, fun cap t d2 hcap ht => ?_⟩
  · rw [TtlCache.insert_fst, h]
  · rw [TtlCache.insert_fst, h]
  · exact TtlCache.containsLive_insert_self c f d now t hcap ht
  · rw [TtlCache.insert_fst]
    exact TtlCache.containsLive_insert_self (TtlCache.new cap) f d now t hcap ht

theorem dedup_cache_insert_contract_witness :
    (((TtlCache.new 10).insert [1, 2, 3] 5 0).1 = false)
    ∧ ((((TtlCache.new 10).insert [1, 2, 3] 5 0).2.insert [1, 2, 3] 5 0).1 = true)
    ∧ (((TtlCache.new 10).insert [1, 2, 3] 5 0).2.containsLive [1, 2, 3] 0 = true) :=
  ⟨(dedup_cache_insert_contract (TtlCache.new 10) [1, 2, 3] 5 0).2.2.1 10,
   (dedup_cache_insert_contract (TtlCache.new 10) [1, 2, 3] 5 0).2.2.2 10 0 5 (by decide)
     (by decide),
   (dedup_cache_insert_contract (TtlCache.new 10) [1, 2, 3] 5 0).2.1 (by decide) 0 (by decide)⟩

/-- C3: after any finite sequence of inserts, a cache created with capacity
`cap` holds at most `cap` entries; the ceiling is enforced by eviction, never
by rejecting the new insert — the freshly inserted fingerprint is live
whenever the cache can hold at least one entry and its TTL is positive. -/
theorem signature_cache_capacity_bound (cap : Nat) (ops : List (Fingerprint × Nat × Nat))
    (c : TtlCache) (f : Fingerprint) (d now : Nat) :
    (((TtlCache.new cap).insertSeq ops).entries.length ≤ cap)
    ∧ (((TtlCache.new cap).insertSeq ops).capacity = cap)
    ∧ (0 < c.capacity → 0 < d → (c.insert f d now).2.containsLive f now = true) := by
  refine ⟨?_, TtlCache.insertSeq_capacity ops (TtlCache.new cap), fun hcap hd => ?_⟩
  · exact TtlCache.insertSeq_length_le ops (TtlCache.new cap) (Nat.zero_le cap)
  · exact TtlCache.containsLive_insert_self c f d now now hcap (by omega)

theorem signature_cache_capacity_bound_witness :
    (((TtlCache.new 2).insertSeq [([1], 9, 0), ([2], 9, 0), ([3], 9, 0)]).entries.length ≤ 2)
    ∧ (((TtlCache.new 1).insert [7] 5 0).2.containsLive [7] 0 = true) :=
  ⟨(signature_cache_capacity_bound 2 [([1], 9, 0), ([2], 9, 0), ([3], 9, 0)]
      (TtlCache.new 1) [7] 5 0).1,
   (signature_cache_capacity_bound 2 [([1], 9, 0), ([2], 9, 0), ([3], 9, 0)]
      (TtlCache.new 1) [7] 5 0).2.2 (by decide) (by decide)⟩

/-- C4: a fingerprint inserted at time `t` with TTL `d` is treated as not
present by any later insert at time `t2 ≥ t + d`, even after an arbitrary
interleaving of inserts of other fingerprints: the lookup reports not live
and the insert returns `false`. -/
theorem signature_cache_ttl_expiry (c : TtlCache) (f : Fingerprint) (d t : Nat)
    (others : List (Fingerprint × Nat × Nat)) (t2 d2 : Nat)
    (hothers : ∀ o ∈ others, o.1 ≠ f) (ht : t + d ≤ t2) :
    ((((c.insert f d t).2).insertSeq others).containsLive f t2 = false)
    ∧ (((((c.insert f d t).2).insertSeq others).insert f d2 t2).1 = false) := by
  have hbound : ∀ e ∈ (((c.insert f d t).2).insertSeq others).entries, e.1 = f → e.2 ≤ t + d := by
    refine TtlCache.insertSeq_key_bound f (t + d) others (c.insert f d t).2 hothers ?_
    intro e he hk
    rw [TtlCache.insert_key_expiry c f d t e he hk]
  have hfalse := TtlCache.containsLive_eq_false_of_bound _ f (t + d) t2 hbound ht
  exact ⟨hfalse, by rw [TtlCache.insert_fst, hfalse]⟩

theorem signature_cache_ttl_expiry_witness :
    ((((TtlCache.new 4).insert [1] 3 0).2.insertSeq [([2], 10, 1)]).containsLive [1] 3 = false)
    ∧ (((((TtlCache.new 4).insert [1] 3 0).2.insertSeq [([2], 10, 1)]).insert [1] 3 3).1
        = false) :=
  signature_cache_ttl_expiry (TtlCache.new 4) [1] 3 0 [([2], 10, 1)] 3 3 (by decide) (by decide)

/-- C2: the broadcast-target node identifier of a discover request is the
explicit target when supplied; otherwise the local identifier for `Unknown`
and `PublicKey(_)` destinations, and `N` for a `NodeId N` destination — and
this resolver output is exactly the target identifier inside the discover
broadcast's `Closest` strategy. -/
theorem destination_resolution_precedence (ni : NodeIdentity) (config : DhtConfig)
    (pk p : CommsPublicKey) (n self : NodeId) (dest : NodeDestination) (dnid : Option NodeId) :
    (DhtActor.network_location_node_id (some n) dest self = n)
    ∧ (DhtActor.network_location_node_id none .Unknown self = self)
    ∧ (DhtActor.network_location_node_id none (.PublicKey p) self = self)
    ∧ (DhtActor.network_location_node_id none (.NodeId n) self = n)
    ∧ ((DhtActor.send_discover ni config pk dnid dest).strategy_node_id
        = DhtActor.network_location_node_id dnid dest ni.node_id) :=
  ⟨rfl, rfl, rfl, rfl, rfl⟩

/-- C5: every Join broadcast carries the local node identifier, advertised
address and feature bitmask, targets the closest `num_neighbouring_nodes`
peers to the local identifier with no exclusions, is unencrypted with
destination `Unknown`, and is what both a dispatched `SendJoin` request and
an auto-join startup emit. -/
theorem join_broadcast_directive (ni : NodeIdentity) (config : DhtConfig) (cache : TtlCache)
    (now : Nat) (transport_ok join_send_ok saf_send_ok : Bool) (events : List LoopEvent) :
    ((DhtActor.send_join ni config).payload
        = .join ⟨ni.node_id, [ni.control_service_address], ni.features_bits⟩)
    ∧ ((DhtActor.send_join ni config).strategy
        = .Closest ⟨config.num_neighbouring_nodes, ni.node_id, []⟩)
    ∧ ((DhtActor.send_join ni config).encryption = .None)
    ∧ ((DhtActor.send_join ni config).destination = .Unknown)
    ∧ ((DhtActor.send_join ni config).message_type = .Join)
    ∧ ((DhtActor.handle_request ni config cache .SendJoin now transport_ok).calls
        = [DhtActor.send_join ni config])
    ∧ (config.enable_auto_join = true →
        ((DhtActor.start ni config cache join_send_ok saf_send_ok events).1.map Prod.fst).head?
          = some (DhtActor.send_join ni config)) := by
  refine ⟨rfl, rfl, rfl, rfl, rfl, rfl, fun h => ?_⟩
  simp [DhtActor.start, h]

theorem join_broadcast_directive_witness :
    ((DhtActor.start ⟨[1], "addr", 0⟩ ⟨true, true, 8, 100, 60⟩ (TtlCache.new 100) true true
        []).1.map Prod.fst).head?
      = some (DhtActor.send_join ⟨[1], "addr", 0⟩ ⟨true, true, 8, 100, 60⟩) :=
  (join_broadcast_directive ⟨[1], "addr", 0⟩ ⟨true, true, 8, 100, 60⟩ (TtlCache.new 100) 0 true
      true true []).2.2.2.2.2.2 rfl

/-- C6: a discover request with no explicit target node identifier and
destination `Unknown` is broadcast toward the local node's own identifier;
and every discover broadcast is encrypted for the public key supplied with
the request. -/
theorem discover_defaulting_and_encryption (ni : NodeIdentity) (config : DhtConfig)
    (K : CommsPublicKey) (dnid : Option NodeId) (dest : NodeDestination) :
    ((DhtActor.send_discover ni config K none .Unknown).strategy_node_id = ni.node_id)
    ∧ ((DhtActor.send_discover ni config K dnid dest).encryption = .EncryptFor K) :=
  ⟨rfl, rfl⟩

/-- C7: startup emits the Join broadcast first (when `enable_auto_join`) and
the stored-message request second (when `enable_auto_stored_message_request`),
each omitted when its flag is false; both target the closest
`num_neighbouring_nodes` peers to the local identifier; and the dispatch loop
is entered regardless of the transport outcome of either startup broadcast. -/
theorem startup_broadcast_sequence (ni : NodeIdentity) (config : DhtConfig) (cache : TtlCache)
    (join_send_ok saf_send_ok : Bool) (events : List LoopEvent) :
    ((DhtActor.start ni config cache join_send_ok saf_send_ok events).1.map Prod.fst
      = (if config.enable_auto_join then [DhtActor.send_join ni config] else [])
        ++ (if config.enable_auto_stored_message_request then
              [DhtActor.request_stored_messages ni config]
            else []))
    ∧ ((DhtActor.send_join ni config).message_type = .Join)
    ∧ ((DhtActor.request_stored_messages ni config).message_type = .SafRequestMessages)
    ∧ ((DhtActor.send_join ni config).strategy
        = .Closest ⟨config.num_neighbouring_nodes, ni.node_id, []⟩)
    ∧ ((DhtActor.request_stored_messages ni config).strategy
        = .Closest ⟨config.num_neighbouring_nodes, ni.node_id, []⟩)
    ∧ ((DhtActor.start ni config cache join_send_ok saf_send_ok events).2
        = DhtActor.dispatch_loop ni config (.Running cache) events) := by
  refine ⟨?_, rfl, rfl, rfl, rfl, rfl⟩
  cases h1 : config.enable_auto_join <;> cases h2 : config.enable_auto_stored_message_request <;>
    simp [DhtActor.start, h1, h2]

/-- C8: a dispatched `SignatureCacheInsert` always produces exactly one
boolean reply — the cache's already-present result — and its handler result
is `Ok` whatever the transport outcome; the caller gets the boolean when a
value is sent, gets `ReplyCanceled` exactly when the actor drops the reply
channel without sending, and otherwise only the channel errors
`ChannelDisconnected` / `SendBufferFull` from enqueueing. -/
theorem cache_insert_reply_obligation (ni : NodeIdentity) (config : DhtConfig)
    (cache : TtlCache) (sig : Fingerprint) (now : Nat) (transport_ok b : Bool)
    (ro : Option Bool) :
    ((DhtActor.handle_request ni config cache (.SignatureCacheInsert sig) now transport_ok).reply
        = some (cache.insert sig config.signature_cache_ttl now).1)
    ∧ ((DhtActor.handle_request ni config cache (.SignatureCacheInsert sig) now
          transport_ok).result_ok = true)
    ∧ (DhtRequester.insert_message_signature .accepted (some b) = .ok b)
    ∧ ((DhtRequester.insert_message_signature .accepted ro
          = .error DhtActorError.ReplyCanceled) ↔ ro = none)
    ∧ (DhtRequester.insert_message_signature .disconnected ro
        = .error DhtActorError.ChannelDisconnected)
    ∧ (DhtRequester.insert_message_signature .full ro = .error DhtActorError.SendBufferFull) := by
  refine ⟨rfl, rfl, rfl, ?_, rfl, rfl⟩
  cases ro <;> simp [DhtRequester.insert_message_signature]

/-- C9: the dispatch loop reaches the terminal `Stopped` state on the
shutdown signal and on a closed, drained request queue; nothing enqueued
strictly after the shutdown signal is ever dispatched (the trace and final
state are those of the prefix up to the signal), while a request dequeued
before the signal is processed to completion. -/
theorem shutdown_graceful_termination (ni : NodeIdentity) (config : DhtConfig) (s : LoopState)
    (cache : TtlCache) (evs1 evs2 : List LoopEvent) (r : DhtRequest) (now : Nat) (ok : Bool) :
    (DhtActor.dispatch_loop ni config s (evs1 ++ LoopEvent.shutdownSignal :: evs2)
       = DhtActor.dispatch_loop ni config s (evs1 ++ [LoopEvent.shutdownSignal]))
    ∧ ((DhtActor.dispatch_loop ni config s
          (evs1 ++ LoopEvent.shutdownSignal :: evs2)).1.isStopped = true)
    ∧ ((DhtActor.dispatch_loop ni config s (evs1 ++ [LoopEvent.queueClosed])).1.isStopped = true)
    ∧ (DhtActor.dispatch_step ni config (.Running cache) .shutdownSignal = (.Stopped cache, []))
    ∧ (DhtActor.dispatch_step ni config (.Running cache) .queueClosed = (.Stopped cache, []))
    ∧ (DhtActor.dispatch_loop ni config (.Running cache) [.request r now ok]
        = (.Running (DhtActor.handle_request ni config cache r now ok).cache,
           [(r, DhtActor.handle_request ni config cache r now ok)])) := by
  have hstep : ∀ (s1 : LoopState) (e : LoopEvent), e = LoopEvent.shutdownSignal ∨
      e = LoopEvent.queueClosed →
      DhtActor.dispatch_loop ni config s1 (e :: evs2)
        = DhtActor.dispatch_loop ni config s1 [e]
        ∧ (DhtActor.dispatch_loop ni config s1 [e]).1.isStopped = true := by
    intro s1 e he
    cases s1 with
    | Running c =>
      rcases he with he | he <;> subst he <;>
        simp [DhtActor.dispatch_loop, DhtActor.dispatch_step,
          DhtActor.dispatch_loop_stopped, LoopState.isStopped]
    | Stopped c =>
      simp [DhtActor.dispatch_loop, DhtActor.dispatch_step,
        DhtActor.dispatch_loop_stopped, LoopState.isStopped]
  refine ⟨?_, ?_, ?_, rfl, rfl, by simp [DhtActor.dispatch_loop, DhtActor.dispatch_step]⟩
  · rw [DhtActor.dispatch_loop_append, DhtActor.dispatch_loop_append]
    rw [(hstep _ LoopEvent.shutdownSignal (Or.inl rfl)).1]
  · rw [DhtActor.dispatch_loop_append]
    dsimp only
    rw [(hstep (DhtActor.dispatch_loop ni config s evs1).1 LoopEvent.shutdownSignal
      (Or.inl rfl)).1]
    exact (hstep _ LoopEvent.shutdownSignal (Or.inl rfl)).2
  · rw [DhtActor.dispatch_loop_append]
    dsimp only
    exact (hstep _ LoopEvent.queueClosed (Or.inr rfl)).2

theorem shutdown_graceful_termination_witness :
    (DhtActor.dispatch_loop ⟨[1], "addr", 0⟩ ⟨false, false, 8, 100, 60⟩
        (.Running (TtlCache.new 100))
        ([LoopEvent.request .SendJoin 0 true] ++ LoopEvent.shutdownSignal
          :: [LoopEvent.request (.SignatureCacheInsert [1]) 1 true])
      = DhtActor.dispatch_loop ⟨[1], "addr", 0⟩ ⟨false, false, 8, 100, 60⟩
          (.Running (TtlCache.new 100))
          ([LoopEvent.request .SendJoin 0 true] ++ [LoopEvent.shutdownSignal])) :=
  (shutdown_graceful_termination ⟨[1], "addr", 0⟩ ⟨false, false, 8, 100, 60⟩
      (.Running (TtlCache.new 100)) (TtlCache.new 100) [LoopEvent.request .SendJoin 0 true]
      [LoopEvent.request (.SignatureCacheInsert [1]) 1 true] .SendJoin 0 true).1

/-- C10: dispatching `SendJoin` or `SendDiscover` leaves the signature cache
unchanged, so the cache after any request sequence equals the cache produced
by its `SignatureCacheInsert` subsequence alone. -/
theorem send_requests_frame_cache (ni : NodeIdentity) (config : DhtConfig) (cache : TtlCache)
    (now : Nat) (ok : Bool) (pk : CommsPublicKey) (dnid : Option NodeId)
    (dest : NodeDestination) (rs : List (DhtRequest × Nat × Bool)) :
    ((DhtActor.handle_request ni config cache .SendJoin now ok).cache = cache)
    ∧ ((DhtActor.handle_request ni config cache (.SendDiscover pk dnid dest) now ok).cache
        = cache)
    ∧ (DhtActor.run_requests ni config cache rs
        = DhtActor.run_requests ni config cache
            (rs.filter fun p => p.1.isSignatureCacheInsert)) := by
  refine ⟨rfl, rfl, ?_⟩
  induction rs generalizing cache with
  | nil => rfl
  | cons head tail ih =>
    obtain ⟨r, n, o⟩ := head
    cases r <;>
      simp [DhtActor.run_requests, DhtActor.handle_request, DhtRequest.isSignatureCacheInsert,
        List.filter, ih]
